import Mathlib

/-!
Shallow embedding of the criteria-extraction, filtering, ranking and
conversational-memory core of the SIBI vehicle recommender
(`car_recommender.py`, `memory_manager.py`, tables from `config.py`).

Python strings are modelled as `List Char` after lowering; `str.lower()` /
`str.upper()` are modelled for the ASCII range plus the accented Spanish
letters that occur in the keyword tables.  Python's `in` substring test is
`containsSub`.  The numeric regular expressions of the source
(`(\d+)\s*k`, `€\s*(\d+)`, ...) are modelled by the two matchers
`findNumThenLit` / `findLitThenNum`: every literal tail/head used by the
source starts with a non-digit, non-space character, so the greedy
leftmost-match semantics of `re.findall(...)[0]` reduces to "maximal digit
run, maximal space run, literal" at the leftmost position where this
succeeds.  Python floats in vehicle records are modelled as rationals.
-/

namespace SIBI

/- The Batteries rational-number operations are `@[irreducible]`, which blocks
`decide` on concrete vehicle scores; restore the default reducibility so that
concrete searches evaluate. -/
attribute [local semireducible] Rat.add Rat.mul Rat.inv Rat.sub

/-- `str.lower()` for the characters used by this application
(ASCII plus the accented uppercase letters of the Spanish keyword tables). -/
def lowerChar (c : Char) : Char :=
  if 'A' ≤ c && c ≤ 'Z' then Char.ofNat (c.toNat + 32)
  else if c = 'Á' then 'á'
  else if c = 'É' then 'é'
  else if c = 'Í' then 'í'
  else if c = 'Ó' then 'ó'
  else if c = 'Ú' then 'ú'
  else if c = 'Ü' then 'ü'
  else if c = 'Ñ' then 'ñ'
  else c

/-- `str.upper()` for the same character range. -/
def upperChar (c : Char) : Char :=
  if 'a' ≤ c && c ≤ 'z' then Char.ofNat (c.toNat - 32)
  else if c = 'á' then 'Á'
  else if c = 'é' then 'É'
  else if c = 'í' then 'Í'
  else if c = 'ó' then 'Ó'
  else if c = 'ú' then 'Ú'
  else if c = 'ü' then 'Ü'
  else if c = 'ñ' then 'Ñ'
  else c

/-- Lower-cased character list of a string (`s.lower()`). -/
def lowerData (s : String) : List Char := s.data.map lowerChar

/-- Upper-cased character list of a string (`s.upper()`). -/
def upperData (s : String) : List Char := s.data.map upperChar

/-- Is `needle` a prefix of `haystack`? -/
def isPrefixCh : List Char → List Char → Bool
  | [], _ => true
  | _ :: _, [] => false
  | a :: as, b :: bs => a = b && isPrefixCh as bs

/-- Python's substring test `needle in haystack`. -/
def containsSub (needle : List Char) : List Char → Bool
  | [] => isPrefixCh needle []
  | b :: bs => isPrefixCh needle (b :: bs) || containsSub needle bs

/-- Python regex `\d` (restricted to the ASCII digits of the inputs). -/
def isDigitCh (c : Char) : Bool := '0' ≤ c && c ≤ '9'

/-- Python regex `\s`: space, tab, newline, carriage return, vertical tab, form feed. -/
def isSpaceCh (c : Char) : Bool :=
  c = ' ' || c = '\t' || c = '\n' || c = '\r' || c = Char.ofNat 11 || c = Char.ofNat 12

/-- Numeric value of a digit run (`int(...)` on the capture). -/
def digitsVal (ds : List Char) : Nat :=
  ds.foldl (fun n c => 10 * n + (c.toNat - 48)) 0

/-- Match `(\d+)\s*lit` anchored at the start of `s`: a non-empty maximal digit
run, then spaces, then the literal; returns the captured number. -/
def numThenLitAt (lit : List Char) (s : List Char) : Option Nat :=
  let ds := s.takeWhile isDigitCh
  if ds.isEmpty then none
  else
    let rest := (s.dropWhile isDigitCh).dropWhile isSpaceCh
    if isPrefixCh lit rest then some (digitsVal ds) else none

/-- `re.findall(r"(\d+)\s*lit", s)[0]`: the capture of the leftmost match. -/
def findNumThenLit (lit : List Char) : List Char → Option Nat
  | [] => none
  | c :: cs =>
    match numThenLitAt lit (c :: cs) with
    | some n => some n
    | none => findNumThenLit lit cs

/-- Match `lit\s*(\d+)` anchored at the start of `s`. -/
def litThenNumAt (lit : List Char) (s : List Char) : Option Nat :=
  if isPrefixCh lit s then
    let ds := ((s.drop lit.length).dropWhile isSpaceCh).takeWhile isDigitCh
    if ds.isEmpty then none else some (digitsVal ds)
  else none

/-- `re.findall(r"lit\s*(\d+)", s)[0]`: the capture of the leftmost match. -/
def findLitThenNum (lit : List Char) : List Char → Option Nat
  | [] => none
  | c :: cs =>
    match litThenNumAt lit (c :: cs) with
    | some n => some n
    | none => findLitThenNum lit cs

/-! ## Keyword tables (`config.py`) -/

/-- `VEHICLE_TYPES` of `config.py`, in dict insertion order. -/
def VEHICLE_TYPES : List (String × List String) :=
  [("Compacto", ["compacto", "hatchback", "segmento C"]),
   ("SUV Coupé", ["suv coupé", "suv coupe", "suv"]),
   ("SUV", ["suv", "todocamino", "todoterreno", "awd", "4*4"]),
   ("Cabrio", ["cabrio", "convertible", "cabriolet", "roadster", "descapotable", "spyder"]),
   ("Familiar", ["familiar", "touring", "wagon"]),
   ("Berlina", ["berlina", "sedan", "sedán"]),
   ("Coupé", ["coupe", "coupé", "fastback", "dos puertas"]),
   ("SUV Compacto", ["suv compacto", "compacto suv"]),
   ("Monovolumen", ["monovolumen", "minivan"]),
   ("Deportivo", ["deportivo", "sport", "racing"]),
   ("SUV Deportivo", ["deportivo suv", "suv deportivo"]),
   ("Furgoneta", ["furgo", "van", "furgoneta"]),
   ("Crossover", ["crossover", "cuv"])]

/-- `MOTOR_TYPES` of `config.py`. -/
def MOTOR_TYPES : List (String × List String) :=
  [("Gasolina", ["gasolina"]),
   ("Diésel", ["diesel", "diésel", "gasoil"]),
   ("Híbrido", ["hibrido", "híbrido", "hybrid"]),
   ("Híbrido Enchufable", ["hibrido enchufable", "híbrido enchufable", "plug-in hybrid"]),
   ("Eléctrico", ["electrico", "eléctrico", "cero emisiones", "100% electrico", "100% eléctrico"])]

/-- `TOPICS` of `config.py`. -/
def TOPICS : List (String × List String) :=
  [("eco", ["eco", "sostenible", "verde", "electrico", "eléctrico", "hibrido", "híbrido",
            "ambiente", "emision", "emisión"]),
   ("deportivo", ["deportivo", "sport", "rapido", "rápido", "performance", "potencia", "cv",
                  "aceleracion", "aceleración", "adrenalina"]),
   ("familiar", ["familia", "familiar", "niños", "ninos", "espacio", "grande", "asientos",
                 "maletero", "sillas infantiles"]),
   ("urbano", ["ciudad", "urbano", "compacto", "pequeño", "pequeno", "estacionamiento",
               "maniobrabilidad", "atascos", "trayectos cortos"]),
   ("viajes", ["viajes", "carretera", "largo recorrido", "autonomia", "autonomía",
               "consumo", "paradas", "vacaciones"]),
   ("offroad", ["offroad", "4x4", "awd", "todoterreno", "campo", "aventura", "montaña",
                "montana", "nieve", "pistas"]),
   ("lujo", ["lujo", "premium", "alta gama", "tope de gama", "acabados", "cuero", "asientos",
             "masaje", "tecnologia", "tecnología", "infotainment", "luces matriciales"]),
   ("economico", ["economico", "económico", "barato", "precio bajo", "presupuesto ajustado",
                  "ahorrar", "gasto bajo"])]

/-- `brand_keywords` of `extract_criteria_from_query` (dict insertion order). -/
def brand_keywords : List (String × String) :=
  [("bmw", "bmw"), ("audi", "audi"), ("mercedes-benz", "mercedes"), ("mercedes", "mercedes"),
   ("volkswagen", "volkswagen"), ("vw", "volkswagen"), ("seat", "seat"), ("cupra", "cupra"),
   ("skoda", "skoda"), ("peugeot", "peugeot"), ("renault", "renault"),
   ("citroen", "citroën"), ("citroën", "citroën")]

/-- `traction_map` of `extract_criteria_from_query` (dict insertion order). -/
def traction_map : List (String × String) :=
  [("delantera", "FWD"), ("tracción delantera", "FWD"), ("traccion delantera", "FWD"),
   ("trasera", "RWD"), ("propulsion", "RWD"), ("propulsión", "RWD"),
   ("tracción trasera", "RWD"), ("traccion trasera", "RWD"),
   ("4x4", "AWD"), ("awd", "AWD"), ("tracción total", "AWD"), ("traccion total", "AWD")]

/-! ## Per-dimension extraction from one lower-cased text -/

/-- Brands matched in a text: the `brand_keywords` scan with its duplicate check. -/
def brandsFrom (t : List Char) : List String :=
  brand_keywords.foldl
    (fun acc p => if containsSub p.1.data t && !acc.contains p.2 then acc ++ [p.2] else acc)
    []

/-- One step of the vehicle-type / motor scan: append the canonical key when
some (lower-cased) alias occurs in the text and the key is not yet collected. -/
def tableStep (t : List Char) (acc : List String) (p : String × List String) : List String :=
  if p.2.any (fun a => containsSub (lowerData a) t) && !acc.contains p.1
  then acc ++ [p.1] else acc

/-- Vehicle types matched in one text. -/
def typesFrom (t : List Char) : List String := VEHICLE_TYPES.foldl (tableStep t) []

/-- Motors matched in one text. -/
def motorsFrom (t : List Char) : List String := MOTOR_TYPES.foldl (tableStep t) []

/-- One step of the topic scan (keywords are stored lower-case and used as-is). -/
def topicStep (t : List Char) (acc : List String) (p : String × List String) : List String :=
  if p.2.any (fun k => containsSub k.data t) && !acc.contains p.1
  then acc ++ [p.1] else acc

/-- Topics matched in one text. -/
def topicsFrom (t : List Char) : List String := TOPICS.foldl (topicStep t) []

/-- The topics loop run over a second text, appending topics not already present. -/
def addTopicsFrom (acc : List String) (t : List Char) : List String :=
  TOPICS.foldl (topicStep t) acc

/-- Gearbox detection on the current utterance (note the bare `"auto"` alternative). -/
def gearboxFromQuery (t : List Char) : Option String :=
  if containsSub "manual".data t then some "Manual"
  else if containsSub "automatico".data t || containsSub "automático".data t
          || containsSub "auto".data t then some "Automático"
  else none

/-- Gearbox detection on the memory context (no bare `"auto"` here). -/
def gearboxFromMemory (t : List Char) : Option String :=
  if containsSub "manual".data t then some "Manual"
  else if containsSub "automatico".data t || containsSub "automático".data t
  then some "Automático"
  else none

/-- First traction keyword matched in a text. -/
def tractionFrom (t : List Char) : Option String :=
  (traction_map.find? (fun p => containsSub p.1.data t)).map (·.2)

/-- The raw capture of the first price pattern that matches
(`(\d+)\s*k`, `€\s*(\d+)`, `(\d+)\s*€`, `menos de\s*(\d+)`, in that order). -/
def rawPriceFrom (t : List Char) : Option Nat :=
  match findNumThenLit "k".data t with
  | some n => some n
  | none =>
    match findLitThenNum "€".data t with
    | some n => some n
    | none =>
      match findNumThenLit "€".data t with
      | some n => some n
      | none => findLitThenNum "menos de".data t

/-- The `price < 500 ⇒ price *= 1000` heuristic. -/
def adjustPrice (p : Nat) : Nat := if p < 500 then p * 1000 else p

/-- The raw capture of the first power pattern that matches
(`(\d+)\s*cv`, `(\d+)\s*hp`, `(\d+)\s*caballos`). -/
def rawPowerFrom (t : List Char) : Option Nat :=
  match findNumThenLit "cv".data t with
  | some n => some n
  | none =>
    match findNumThenLit "hp".data t with
    | some n => some n
    | none => findNumThenLit "caballos".data t

/-- The raw capture of the first autonomy pattern that matches
(`(\d+)\s*km`, `autonomía\s*(\d+)`, `autonomia\s*(\d+)`). -/
def rawAutonomyFrom (t : List Char) : Option Nat :=
  match findNumThenLit "km".data t with
  | some n => some n
  | none =>
    match findLitThenNum "autonomía".data t with
    | some n => some n
    | none => findLitThenNum "autonomia".data t

/-! ## Criteria -/

/-- The criteria dictionary built by `extract_criteria_from_query`. -/
structure Criteria where
  topics : List String
  vehicle_types : List String
  brands : List String
  motors : List String
  gearbox : Option String
  traction : Option String
  price_range : Option (Nat × Nat)
  power_range : Option (Nat × Nat)
  autonomy_min : Option Nat
  has_enough_data : Bool
deriving Repr, DecidableEq

/-- `1` for `True`, `0` for `False` (Python's `sum` over booleans). -/
def boolNat (b : Bool) : Nat := if b then 1 else 0

/-- `extract_criteria_from_query(user_query, memory_context)` of `car_recommender.py`:
lower both texts, scan each dimension in the utterance and — where the code does —
fall back to (or, for topics, also union in) the memory context, then compute
`has_enough_data`. The Python falsiness test `if not criteria["autonomy_min"]`
treats a detected autonomy of `0` like a missing value. -/
def extract_criteria_from_query (user_query memory_context : String) : Criteria :=
  let ql := lowerData user_query
  let ml := lowerData memory_context
  let brands := brandsFrom ql
  let typesQ := typesFrom ql
  let vtypes := if typesQ.isEmpty then typesFrom ml else typesQ
  let topics := addTopicsFrom (topicsFrom ql) ml
  let motorsQ := motorsFrom ql
  let motors := if motorsQ.isEmpty then motorsFrom ml else motorsQ
  let gearbox :=
    match gearboxFromQuery ql with
    | some g => some g
    | none => gearboxFromMemory ml
  let traction :=
    match tractionFrom ql with
    | some tr => some tr
    | none => tractionFrom ml
  let price_range :=
    match rawPriceFrom ql with
    | some p => some (0, adjustPrice p)
    | none =>
      match rawPriceFrom ml with
      | some p => some (0, adjustPrice p)
      | none => none
  let power_range :=
    match rawPowerFrom ql with
    | some p => some (p, 1000)
    | none =>
      match rawPowerFrom ml with
      | some p => some (p, 1000)
      | none => none
  let autonomy_min :=
    match rawAutonomyFrom ql with
    | some a =>
      if a ≠ 0 then some a
      else
        match rawAutonomyFrom ml with
        | some b => some b
        | none => some a
    | none => rawAutonomyFrom ml
  let has_type := !vtypes.isEmpty
  let has_topic := !topics.isEmpty
  let has_price := price_range.isSome
  let has_power := power_range.isSome
  let has_motor := !motors.isEmpty
  let has_enough_data :=
    if has_type then has_topic || has_price || has_motor || has_power
    else decide (2 ≤ boolNat has_topic + boolNat has_price + boolNat has_power + boolNat has_motor)
  { topics := topics, vehicle_types := vtypes, brands := brands, motors := motors,
    gearbox := gearbox, traction := traction, price_range := price_range,
    power_range := power_range, autonomy_min := autonomy_min,
    has_enough_data := has_enough_data }

/-! ## Vehicles, filtering, scoring, ranking (`search_vehicles_by_criteria`) -/

/-- A vehicle record after `_clean_vehicle`: all numeric fields are defined
(Python floats, modelled as rationals), categorical fields are strings.
`relevance_score` models the presence/value of the `"relevance_score"` key,
absent when the record was just loaded. -/
structure Vehicle where
  id : String
  name : String
  precio : ℚ
  potencia : ℚ
  aceleracion : ℚ
  autonomia : ℚ
  cambio : String
  traccion : String
  score_eco : ℚ
  score_urbano : ℚ
  score_familiar : ℚ
  score_deportivo : ℚ
  score_viajes : ℚ
  score_offroad : ℚ
  relevance_score : Option ℚ
deriving Repr, DecidableEq

/-- `type_keywords` of `search_vehicles_by_criteria` (dict insertion order). -/
def type_keywords : List (String × List String) :=
  [("suv", ["suv", "audi q", "bmw x", "mercedes gle", "range rover", "jeep"]),
   ("compacto", ["compact", "polo", "fiesta", "ibiza", "i30"]),
   ("berlina", ["berlina", "sedan", "a4", "c-class", "3 series", "accord", "camry"]),
   ("familiar", ["familiar", "estate", "touring", "avant", "break"]),
   ("monovolumen", ["monovolumen", "mpv", "grand", "scenic"]),
   ("deportivo", ["coupé", "coupe", "gt", " m", " rs", " amg"])]

/-- `matches_any_type` of `search_vehicles_by_criteria`: a vehicle name matches
a requested (lower-cased) type if some `type_keywords` entry whose key occurs in
the type has a keyword occurring in the name, or the type itself occurs in the name. -/
def matches_any_type (vtypes : List String) (vname : String) : Bool :=
  let name := lowerData vname
  vtypes.any (fun t =>
    let tl := lowerData t
    type_keywords.any
        (fun p => containsSub p.1.data tl && p.2.any (fun kw => containsSub kw.data name))
      || containsSub tl name)

/-- The vehicle-type filter (`if criteria.get("vehicle_types"):` — a no-op when empty). -/
def passes_type (c : Criteria) (v : Vehicle) : Bool :=
  if c.vehicle_types.isEmpty then true else matches_any_type c.vehicle_types v.name

/-- The brand filter: some requested brand occurs in the lower-cased name. -/
def passes_brand (c : Criteria) (v : Vehicle) : Bool :=
  if c.brands.isEmpty then true
  else c.brands.any (fun b => containsSub (lowerData b) (lowerData v.name))

/-- The gearbox filter: the lower-cased criterion occurs in the lower-cased `cambio`. -/
def passes_gearbox (c : Criteria) (v : Vehicle) : Bool :=
  match c.gearbox with
  | none => true
  | some g => containsSub (lowerData g) (lowerData v.cambio)

/-- The traction filter: exact equality with the upper-cased `traccion` field. -/
def passes_traction (c : Criteria) (v : Vehicle) : Bool :=
  match c.traction with
  | none => true
  | some tr => tr.data == upperData v.traccion

/-- The price filter: inclusive bounds. -/
def passes_price (c : Criteria) (v : Vehicle) : Bool :=
  match c.price_range with
  | none => true
  | some (lo, hi) => decide ((lo : ℚ) ≤ v.precio) && decide (v.precio ≤ (hi : ℚ))

/-- The power filter: inclusive bounds. -/
def passes_power (c : Criteria) (v : Vehicle) : Bool :=
  match c.power_range with
  | none => true
  | some (lo, hi) => decide ((lo : ℚ) ≤ v.potencia) && decide (v.potencia ≤ (hi : ℚ))

/-- The autonomy filter; `if criteria.get("autonomy_min"):` skips it when the
stored minimum is `0` (Python falsiness), not only when it is absent. -/
def passes_autonomy (c : Criteria) (v : Vehicle) : Bool :=
  match c.autonomy_min with
  | none => true
  | some a => if a = 0 then true else decide ((a : ℚ) ≤ v.autonomia)

/-- Conjunction of all seven filters. The source applies them as successive
list comprehensions, which is extensionally filtering by this conjunction. -/
def passesAllFilters (c : Criteria) (v : Vehicle) : Bool :=
  passes_type c v && passes_brand c v && passes_gearbox c v && passes_traction c v
    && passes_price c v && passes_power c v && passes_autonomy c v

/-- The filtering phase of `search_vehicles_by_criteria`. -/
def applyFilters (c : Criteria) (db : List Vehicle) : List Vehicle :=
  db.filter (passesAllFilters c)

/-- `vehicle.get(f"score_{topic}", 0)`: the six score columns exist; any other
topic key (`lujo`, `economico`) defaults to `0`. -/
def scoreForTopic (v : Vehicle) : String → ℚ
  | "eco" => v.score_eco
  | "urbano" => v.score_urbano
  | "familiar" => v.score_familiar
  | "deportivo" => v.score_deportivo
  | "viajes" => v.score_viajes
  | "offroad" => v.score_offroad
  | _ => 0

/-- The relevance score computed by `_score_vehicles` for one vehicle:
accumulate `score += vehicle_score * 100` over the requested topics,
then replace an exact `0` by the flat default `20`. -/
def scoreValue (v : Vehicle) (topics : List String) : ℚ :=
  let s := topics.foldl (fun acc t => acc + scoreForTopic v t * 100) 0
  if s = 0 then 20 else s

/-- `_score_vehicles`: set `relevance_score` on every vehicle of the list. -/
def score_vehicles (vehicles : List Vehicle) (topics : List String) : List Vehicle :=
  vehicles.map (fun v => { v with relevance_score := some (scoreValue v topics) })

/-- The sort key `x.get("relevance_score", 0)`. -/
def relKey (v : Vehicle) : ℚ := v.relevance_score.getD 0

/-- Insert a vehicle after every already-placed vehicle of greater-or-equal key. -/
def insertDesc (v : Vehicle) : List Vehicle → List Vehicle
  | [] => [v]
  | w :: ws => if relKey w < relKey v then v :: w :: ws else w :: insertDesc v ws

/-- Stable descending sort by `relevance_score`, modelling
`sorted(scored, key=..., reverse=True)` (Python's sort is stable; a stable
descending sort is extensionally unique, so insertion sort realises it). -/
def sortDesc (vs : List Vehicle) : List Vehicle := vs.foldl (fun acc v => insertDesc v acc) []

/-- `search_vehicles_by_criteria`: early return on an empty catalog, otherwise
filter, score, rank, and return the top 5 together with `has_enough_data`. -/
def search_vehicles_by_criteria (db : List Vehicle) (c : Criteria) : List Vehicle × Bool :=
  if db.isEmpty then ([], c.has_enough_data)
  else ((sortDesc (score_vehicles (applyFilters c db) c.topics)).take 5, c.has_enough_data)

/-- The state of `self.vehicles_db` after one search: `filtered` starts from a
*shallow* copy of the catalog list, so `_score_vehicles` writes
`relevance_score` into the very records stored in `vehicles_db` — every record
passing all filters is mutated; the others keep their previous value. -/
def vehicles_db_after_search (db : List Vehicle) (c : Criteria) : List Vehicle :=
  if db.isEmpty then db
  else db.map (fun v =>
    if passesAllFilters c v then { v with relevance_score := some (scoreValue v c.topics) } else v)

/-- Erase the `relevance_score` key: what a record's catalog fields look like. -/
def stripScore (v : Vehicle) : Vehicle := { v with relevance_score := none }

/-! ## MemoryManager (`memory_manager.py`) -/

/-- A stored conversation turn (the `metadata` dict is stored but never read
by the core logic; it is modelled as an association list). -/
structure Message where
  role : String
  content : String
  timestamp : Nat
  metadata : List (String × String)
deriving Repr, DecidableEq

/-- A stored filter snapshot. -/
structure FilterRecord where
  timestamp : Nat
  filters : List (String × ℚ)
deriving Repr, DecidableEq

/-- `collections.deque(maxlen=maxlen).append`: append on the right and, when
over capacity, evict from the left. -/
def dequeAppend {α : Type} (maxlen : Nat) (d : List α) (x : α) : List α :=
  let d2 := d ++ [x]
  if maxlen < d2.length then d2.drop (d2.length - maxlen) else d2

/-- The topic keyword table private to `MemoryManager._extract_topics`
(it differs from the `TOPICS` table of `config.py`). -/
def MM_TOPICS : List (String × List String) :=
  [("eco", ["eco", "sostenible", "verde", "electrico", "hibrido", "ambiente"]),
   ("deportivo", ["deportivo", "rapido", "performance", "potencia", "cv", "aceleracion"]),
   ("familiar", ["familia", "familiar", "espacio", "grande", "asientos", "maletero"]),
   ("urbano", ["ciudad", "urbano", "compacto", "pequeño", "estacionamiento"]),
   ("viajes", ["viajes", "carretera", "largo", "autonomia", "gasolina"]),
   ("offroad", ["offroad", "4x4", "terreno", "campo", "aventura", "montaña"]),
   ("lujo", ["lujo", "premium", "confort", "cuero", "tecnologia"]),
   ("economico", ["economico", "barato", "precio", "presupuesto", "ahorrar"])]

/-- Add an element to a Python `set` modelled as a duplicate-free list. -/
def addTopic (ts : List String) (t : String) : List String :=
  if ts.contains t then ts else ts ++ [t]

/-- `MemoryManager._extract_topics`: add every topic whose keyword list
matches the lower-cased text to the mentioned-topics set. -/
def extractTopicsMM (ts : List String) (text : String) : List String :=
  let tl := lowerData text
  MM_TOPICS.foldl
    (fun acc p => if p.2.any (fun k => containsSub k.data tl) then addTopic acc p.1 else acc)
    ts

/-- The in-memory state of a `MemoryManager` instance.  The
`user_preferences` dict only ever holds the keys `motor_preference` and
`cambio_preference`, modelled as two optional fields. -/
structure MemoryManager where
  max_messages : Nat
  max_filters_history : Nat
  messages : List Message
  filters_history : List FilterRecord
  motor_preference : Option String
  cambio_preference : Option String
  mentioned_topics : List String
deriving Repr, DecidableEq

/-- `MemoryManager.__init__(max_messages, max_filters_history)`. -/
def MemoryManager.init (maxM maxF : Nat) : MemoryManager :=
  { max_messages := maxM, max_filters_history := maxF, messages := [],
    filters_history := [], motor_preference := none, cambio_preference := none,
    mentioned_topics := [] }

/-- The motor-preference keyword chain of `MemoryManager._extract_preferences`
(`if electrico/ev/electrica ... elif hibrido/phev ... elif gasolina/nafta ...
elif diesel`); `none` when no keyword fires. -/
def motorPrefDetect (tl : List Char) : Option String :=
  if containsSub "electrico".data tl || containsSub "ev".data tl
      || containsSub "electrica".data tl then some "Eléctrico"
  else if containsSub "hibrido".data tl || containsSub "phev".data tl then some "Híbrido"
  else if containsSub "gasolina".data tl || containsSub "nafta".data tl then some "Gasolina"
  else if containsSub "diesel".data tl then some "Diésel"
  else none

/-- The gearbox-preference keyword chain of `MemoryManager._extract_preferences`
(note `"automática"` here, unlike the extractor of `car_recommender.py`). -/
def cambioPrefDetect (tl : List Char) : Option String :=
  if containsSub "manual".data tl then some "Manual"
  else if containsSub "automatico".data tl || containsSub "automática".data tl then
    some "Automático"
  else none

/-- `MemoryManager._extract_preferences`: overwrite (never merge) each learned
preference exactly when its keyword chain fires. -/
def extractPreferences (s : MemoryManager) (text : String) : MemoryManager :=
  { s with
    motor_preference :=
      match motorPrefDetect (lowerData text) with
      | some mp => some mp
      | none => s.motor_preference,
    cambio_preference :=
      match cambioPrefDetect (lowerData text) with
      | some cp => some cp
      | none => s.cambio_preference }

/-- `MemoryManager.add_message(role, content, metadata)` (`datetime.now()` is
passed in as the timestamp): append to the bounded message deque, then, for a
user turn, re-scan topics and preferences. -/
def add_message (s : MemoryManager) (role content : String) (ts : Nat)
    (metadata : List (String × String)) : MemoryManager :=
  let s1 := { s with
    messages := dequeAppend s.max_messages s.messages
      { role := role, content := content, timestamp := ts, metadata := metadata } }
  if role == "user" then
    extractPreferences
      { s1 with mentioned_topics := extractTopicsMM s1.mentioned_topics content } content
  else s1

/-- The mutating operations of `MemoryManager`
(`get_context`, `get_summary`, … are pure and do not change the state). -/
inductive MemOp where
  | addMessage (role content : String) (ts : Nat) (metadata : List (String × String))
  | addFilterUpdate (filters : List (String × ℚ)) (ts : Nat)
  | importMemory (msgs : List Message) (frecs : List FilterRecord)
      (motorPref cambioPref : Option String) (topics : List String)
  | clear
deriving DecidableEq

/-- One mutating operation applied to a `MemoryManager` state:
`add_message`, `add_filter_update`, `import_memory`, `clear`. -/
def memStep (s : MemoryManager) : MemOp → MemoryManager
  | .addMessage r c ts md => add_message s r c ts md
  | .addFilterUpdate f ts =>
    { s with filters_history :=
        dequeAppend s.max_filters_history s.filters_history { timestamp := ts, filters := f } }
  | .importMemory msgs frecs mp cp tps =>
    { s with
      messages := msgs.foldl (dequeAppend s.max_messages) s.messages,
      filters_history := frecs.foldl (dequeAppend s.max_filters_history) s.filters_history,
      motor_preference := match mp with | some x => some x | none => s.motor_preference,
      cambio_preference := match cp with | some x => some x | none => s.cambio_preference,
      mentioned_topics := tps.foldl addTopic s.mentioned_topics }
  | .clear =>
    { s with messages := [], filters_history := [], motor_preference := none,
             cambio_preference := none, mentioned_topics := [] }

/-! ## Concrete fixtures used by counterexamples and witnesses -/

/-- A plain catalog record used as a base for concrete test vehicles. -/
def baseVehicle : Vehicle :=
  { id := "v0", name := "v0", precio := 30000, potencia := 100, aceleracion := 8,
    autonomia := 600, cambio := "Manual", traccion := "FWD",
    score_eco := 0, score_urbano := 0, score_familiar := 0, score_deportivo := 0,
    score_viajes := 0, score_offroad := 0, relevance_score := none }

/-- A vehicle whose power (1200 CV) exceeds the upper sentinel 1000. -/
def vHigh : Vehicle := { baseVehicle with id := "high", name := "high", potencia := 1200 }

/-- Vehicle A of the ranking-stability scenario: eco score 0.8. -/
def vehA : Vehicle := { baseVehicle with id := "A", name := "A", score_eco := 4/5 }

/-- Vehicle B of the ranking-stability scenario: eco score 0.5. -/
def vehB : Vehicle := { baseVehicle with id := "B", name := "B", score_eco := 1/2 }

/-- Vehicle C of the ranking-stability scenario: eco score 0.8. -/
def vehC : Vehicle := { baseVehicle with id := "C", name := "C", score_eco := 4/5 }

/-- Turn a (role, content, timestamp) triple into a stored message with empty
metadata (the `add_message` default). -/
def toMessage (rct : String × String × Nat) : Message :=
  { role := rct.1, content := rct.2.1, timestamp := rct.2.2, metadata := [] }

/-- Append a list of turns to a fresh memory of message capacity `maxM`
(filter-history capacity at its default 5, metadata empty). -/
def runTurns (maxM : Nat) (turns : List (String × String × Nat)) : MemoryManager :=
  turns.foldl (fun st rct => add_message st rct.1 rct.2.1 rct.2.2 []) (MemoryManager.init maxM 5)

/-- Three concrete user turns; the first mentions the topic "eco". -/
def turnsEx : List (String × String × Nat) :=
  [("user", "quiero algo eco", 0), ("user", "para la familia", 1), ("user", "barato", 2)]

/-! ## Projection lemmas: how each criteria field is assembled -/

theorem extract_topics_eq (q m : String) :
    (extract_criteria_from_query q m).topics
      = addTopicsFrom (topicsFrom (lowerData q)) (lowerData m) := rfl

theorem extract_types_eq (q m : String) :
    (extract_criteria_from_query q m).vehicle_types
      = (if (typesFrom (lowerData q)).isEmpty then typesFrom (lowerData m)
         else typesFrom (lowerData q)) := rfl

theorem extract_brands_eq (q m : String) :
    (extract_criteria_from_query q m).brands = brandsFrom (lowerData q) := rfl

theorem extract_motors_eq (q m : String) :
    (extract_criteria_from_query q m).motors
      = (if (motorsFrom (lowerData q)).isEmpty then motorsFrom (lowerData m)
         else motorsFrom (lowerData q)) := rfl

theorem extract_gearbox_eq (q m : String) :
    (extract_criteria_from_query q m).gearbox
      = (match gearboxFromQuery (lowerData q) with
         | some g => some g
         | none => gearboxFromMemory (lowerData m)) := rfl

theorem extract_traction_eq (q m : String) :
    (extract_criteria_from_query q m).traction
      = (match tractionFrom (lowerData q) with
         | some tr => some tr
         | none => tractionFrom (lowerData m)) := rfl

theorem extract_price_eq (q m : String) :
    (extract_criteria_from_query q m).price_range
      = (match rawPriceFrom (lowerData q) with
         | some p => some (0, adjustPrice p)
         | none =>
           match rawPriceFrom (lowerData m) with
           | some p => some (0, adjustPrice p)
           | none => none) := rfl

theorem extract_power_eq (q m : String) :
    (extract_criteria_from_query q m).power_range
      = (match rawPowerFrom (lowerData q) with
         | some p => some (p, 1000)
         | none =>
           match rawPowerFrom (lowerData m) with
           | some p => some (p, 1000)
           | none => none) := rfl

theorem extract_autonomy_eq (q m : String) :
    (extract_criteria_from_query q m).autonomy_min
      = (match rawAutonomyFrom (lowerData q) with
         | some a =>
           if a ≠ 0 then some a
           else
             match rawAutonomyFrom (lowerData m) with
             | some b => some b
             | none => some a
         | none => rawAutonomyFrom (lowerData m)) := rfl

theorem extract_enough_eq (q m : String) :
    (extract_criteria_from_query q m).has_enough_data
      = (if !(extract_criteria_from_query q m).vehicle_types.isEmpty then
           !(extract_criteria_from_query q m).topics.isEmpty
             || (extract_criteria_from_query q m).price_range.isSome
             || !(extract_criteria_from_query q m).motors.isEmpty
             || (extract_criteria_from_query q m).power_range.isSome
         else
           decide (2 ≤ boolNat (!(extract_criteria_from_query q m).topics.isEmpty)
             + boolNat (extract_criteria_from_query q m).price_range.isSome
             + boolNat (extract_criteria_from_query q m).power_range.isSome
             + boolNat (!(extract_criteria_from_query q m).motors.isEmpty))) := rfl

/-! ## Helper lemmas on the accumulator scans -/

theorem mem_topicStep (t : List Char) (acc : List String) (pk : String)
    (pkws : List String) (x : String) :
    x ∈ topicStep t acc (pk, pkws) ↔
      x ∈ acc ∨ (x = pk ∧ pkws.any (fun k => containsSub k.data t) = true) := by
  unfold topicStep
  cases hm : pkws.any (fun k => containsSub k.data t) with
  | false => simp [hm]
  | true =>
    cases hc : acc.contains pk with
    | true =>
      have hpk : pk ∈ acc := by simpa using hc
      simp only [hm, hc, Bool.not_true, Bool.and_false, Bool.false_eq_true, if_false]
      constructor
      · exact Or.inl
      · rintro (h | ⟨rfl, -⟩)
        · exact h
        · exact hpk
    | false =>
      simp only [hm, hc, Bool.not_false, Bool.and_self, if_true]
      simp [List.mem_append]

theorem topicStep_grow (t : List Char) (acc : List String) (p : String × List String)
    (x : String) (h : x ∈ acc) : x ∈ topicStep t acc p := by
  rcases p with ⟨pk, pkws⟩
  exact (mem_topicStep t acc pk pkws x).mpr (Or.inl h)

theorem mem_foldl_topicStep (t : List Char) (l : List (String × List String)) :
    ∀ (acc : List String) (x : String),
      x ∈ l.foldl (topicStep t) acc ↔
        x ∈ acc ∨ ∃ kws, (x, kws) ∈ l ∧ kws.any (fun k => containsSub k.data t) = true := by
  induction l with
  | nil => intro acc x; simp
  | cons p l ih =>
    intro acc x
    rcases p with ⟨pk, pkws⟩
    rw [List.foldl_cons, ih, mem_topicStep]
    constructor
    · rintro ((h | ⟨rfl, hmk⟩) | ⟨kws, hk, hmk⟩)
      · exact Or.inl h
      · exact Or.inr ⟨pkws, by simp, hmk⟩
      · exact Or.inr ⟨kws, List.mem_cons_of_mem _ hk, hmk⟩
    · rintro (h | ⟨kws, hk, hmk⟩)
      · exact Or.inl (Or.inl h)
      · rcases List.mem_cons.mp hk with heq | hk'
        · injection heq with h1 h2
          exact Or.inl (Or.inr ⟨h1, h2 ▸ hmk⟩)
        · exact Or.inr ⟨kws, hk', hmk⟩

theorem mem_topicsFrom_iff (t : List Char) (x : String) :
    x ∈ topicsFrom t ↔
      ∃ kws, (x, kws) ∈ TOPICS ∧ kws.any (fun k => containsSub k.data t) = true := by
  unfold topicsFrom
  rw [mem_foldl_topicStep]
  simp

theorem mem_foldl_grow {β : Type} (f : List String → β → List String)
    (hf : ∀ acc b x, x ∈ acc → x ∈ f acc b) :
    ∀ (l : List β) (acc : List String) (x : String), x ∈ acc → x ∈ l.foldl f acc := by
  intro l
  induction l with
  | nil => intro acc x h; exact h
  | cons b l ih => intro acc x h; exact ih (f acc b) x (hf acc b x h)

/-! ## Claim C1: the sufficiency rule -/

/-- C1, counterexample: on the utterance "diesel 30k" (a motor and a price,
no type, no topic, no power) the code sets `has_enough_data = true`, although
fewer than 2 of {topic, price, power} were detected — the claim's no-type rule
would demand `false` here. -/
theorem c1_counterexample :
    (extract_criteria_from_query "diesel 30k" "").has_enough_data = true ∧
    (extract_criteria_from_query "diesel 30k" "").vehicle_types = [] ∧
    ¬ (2 ≤ boolNat (!(extract_criteria_from_query "diesel 30k" "").topics.isEmpty)
        + boolNat (extract_criteria_from_query "diesel 30k" "").price_range.isSome
        + boolNat (extract_criteria_from_query "diesel 30k" "").power_range.isSome) := by
  decide

/-- C1, amended: `has_enough_data` is true exactly when a vehicle type was
detected and at least one of {topic, price, motor, power} was also detected,
or, with no type detected, at least 2 of {topic, price, power, **motor**} were
detected (the code counts the motor signal too in the no-type branch). -/
theorem c1_sufficiency_rule (q m : String) (c : Criteria)
    (hc : c = extract_criteria_from_query q m) :
    c.has_enough_data = true ↔
      ((c.vehicle_types.isEmpty = false ∧
        (c.topics.isEmpty = false ∨ c.price_range.isSome = true ∨
         c.motors.isEmpty = false ∨ c.power_range.isSome = true)) ∨
       (c.vehicle_types.isEmpty = true ∧
        2 ≤ boolNat (!c.topics.isEmpty) + boolNat c.price_range.isSome
          + boolNat c.power_range.isSome + boolNat (!c.motors.isEmpty))) := by
  subst hc
  rw [extract_enough_eq]
  cases hb : (extract_criteria_from_query q m).vehicle_types.isEmpty with
  | false => simp [hb, or_assoc]
  | true => simp [hb]

/-- C1, witness: on "suv" (type) with memory "eco" (topic) the rule concludes
that the data is sufficient. -/
theorem c1_witness : (extract_criteria_from_query "suv" "eco").has_enough_data = true :=
  (c1_sufficiency_rule "suv" "eco" (extract_criteria_from_query "suv" "eco") rfl).mpr
    (Or.inl ⟨by decide, Or.inl (by decide)⟩)

/-! ## Claim C2: union vs. fallback for set-valued fields -/

/-- C2, counterexample: with utterance "suv" and memory "berlina", the memory
matches the vehicle type "Berlina", but because the utterance already produced
types, the memory is never scanned: "Berlina" is missing from the result, so
vehicle types are not a union of both sources. -/
theorem c2_counterexample :
    typesFrom (lowerData "berlina") = ["Berlina"] ∧
    (extract_criteria_from_query "suv" "berlina").vehicle_types = ["SUV Coupé", "SUV"] ∧
    "Berlina" ∉ (extract_criteria_from_query "suv" "berlina").vehicle_types := by
  decide

/-- C2, amended: only `topics` is a union of the matches of both sources
(no topic matched in either text is lost); `vehicle_types` and `motors` take
the memory matches only as a fallback when the utterance yields none, and
`brands` is extracted from the utterance alone. -/
theorem c2_union_and_fallback (q m : String) :
    (∀ x, x ∈ topicsFrom (lowerData q) ∨ x ∈ topicsFrom (lowerData m) →
        x ∈ (extract_criteria_from_query q m).topics) ∧
    (extract_criteria_from_query q m).vehicle_types
      = (if (typesFrom (lowerData q)).isEmpty then typesFrom (lowerData m)
         else typesFrom (lowerData q)) ∧
    (extract_criteria_from_query q m).motors
      = (if (motorsFrom (lowerData q)).isEmpty then motorsFrom (lowerData m)
         else motorsFrom (lowerData q)) ∧
    (extract_criteria_from_query q m).brands = brandsFrom (lowerData q) := by
  refine ⟨?_, rfl, rfl, rfl⟩
  intro x hx
  rw [extract_topics_eq]
  unfold addTopicsFrom
  rcases hx with hq | hm2
  · exact mem_foldl_grow (topicStep (lowerData m)) (topicStep_grow (lowerData m)) TOPICS _ x hq
  · rcases (mem_topicsFrom_iff (lowerData m) x).mp hm2 with ⟨kws, hk, hmk⟩
    exact (mem_foldl_topicStep (lowerData m) TOPICS _ x).mpr (Or.inr ⟨kws, hk, hmk⟩)

/-- C2, witness: "urbano" matched in the utterance "ciudad" and "familiar"
matched in the memory "familia" both reach the extracted topics. -/
theorem c2_witness :
    "urbano" ∈ (extract_criteria_from_query "ciudad" "familia").topics ∧
    "familiar" ∈ (extract_criteria_from_query "ciudad" "familia").topics :=
  ⟨(c2_union_and_fallback "ciudad" "familia").1 "urbano" (Or.inl (by decide)),
   (c2_union_and_fallback "ciudad" "familia").1 "familiar" (Or.inr (by decide))⟩

/-! ## Claim C3: the power range upper bound -/

/-- C3, counterexample: "quiero 300 cv" yields power range (300, 1000), and the
1200-CV vehicle `vHigh` — whose power exceeds the detected minimum — fails the
power filter and is excluded from the search results: the upper sentinel 1000
is a real cutoff, not +infinity. -/
theorem c3_counterexample :
    (extract_criteria_from_query "quiero 300 cv" "").power_range = some (300, 1000) ∧
    (300 : ℚ) ≤ vHigh.potencia ∧
    passes_power (extract_criteria_from_query "quiero 300 cv" "") vHigh = false ∧
    (search_vehicles_by_criteria [vHigh] (extract_criteria_from_query "quiero 300 cv" "")).1
      = [] := by
  decide

/-- C3, amended: a detected power always produces the range (detected, 1000),
and the power filter passes exactly the vehicles with
detected ≤ power ≤ 1000: vehicles above the 1000 sentinel are cut off. -/
theorem c3_power_range_filter (q m : String) (p hi : Nat) (v : Vehicle)
    (h : (extract_criteria_from_query q m).power_range = some (p, hi)) :
    hi = 1000 ∧
    passes_power (extract_criteria_from_query q m) v
      = (decide ((p : ℚ) ≤ v.potencia) && decide (v.potencia ≤ ((1000 : ℕ) : ℚ))) := by
  have hhi : hi = 1000 := by
    have h' := h
    rw [extract_power_eq] at h'
    rcases hq : rawPowerFrom (lowerData q) with _ | a <;> rw [hq] at h'
    · rcases hm2 : rawPowerFrom (lowerData m) with _ | b <;> rw [hm2] at h'
      · simp at h'
      · simp only [Option.some.injEq, Prod.mk.injEq] at h'
        exact h'.2.symm
    · simp only [Option.some.injEq, Prod.mk.injEq] at h'
      exact h'.2.symm
  subst hhi
  exact ⟨rfl, by simp only [passes_power, h]⟩

/-- C3, witness: for the detected minimum 300 and the 100-CV `baseVehicle`,
the filter is the two-sided comparison against 300 and 1000. -/
theorem c3_witness :
    1000 = 1000 ∧
    passes_power (extract_criteria_from_query "quiero 300 cv" "") baseVehicle
      = (decide ((300 : ℚ) ≤ baseVehicle.potencia)
          && decide (baseVehicle.potencia ≤ ((1000 : ℕ) : ℚ))) :=
  c3_power_range_filter "quiero 300 cv" "" 300 1000 baseVehicle (by decide)

/-! ## Claim C5: utterance precedence for single-valued fields -/

/-- C5, counterexample: the utterance "0 km" matches the autonomy pattern with
value 0, the memory "100 km" matches with value 100, and the extracted
autonomy is the memory's 100, not the utterance's 0: Python's falsiness test
`if not criteria["autonomy_min"]` lets the memory override a detected 0. -/
theorem c5_counterexample :
    rawAutonomyFrom (lowerData "0 km") = some 0 ∧
    rawAutonomyFrom (lowerData "100 km") = some 100 ∧
    (extract_criteria_from_query "0 km" "100 km").autonomy_min = some 100 ∧
    (extract_criteria_from_query "0 km" "100 km").autonomy_min ≠ some 0 := by
  decide

/-- C5, amended: for gearbox, traction, price and power the utterance's match
always wins over the memory context; for autonomy it wins whenever the
detected value is nonzero (a detected 0 is treated as missing and the memory
is consulted). -/
theorem c5_single_valued_precedence (q m : String) :
    (∀ g, gearboxFromQuery (lowerData q) = some g →
        (extract_criteria_from_query q m).gearbox = some g) ∧
    (∀ tr, tractionFrom (lowerData q) = some tr →
        (extract_criteria_from_query q m).traction = some tr) ∧
    (∀ p, rawPriceFrom (lowerData q) = some p →
        (extract_criteria_from_query q m).price_range = some (0, adjustPrice p)) ∧
    (∀ p, rawPowerFrom (lowerData q) = some p →
        (extract_criteria_from_query q m).power_range = some (p, 1000)) ∧
    (∀ a, a ≠ 0 → rawAutonomyFrom (lowerData q) = some a →
        (extract_criteria_from_query q m).autonomy_min = some a) := by
  refine ⟨?_, ?_, ?_, ?_, ?_⟩
  · intro g h; rw [extract_gearbox_eq, h]
  · intro tr h; rw [extract_traction_eq, h]
  · intro p h; rw [extract_price_eq, h]
  · intro p h; rw [extract_power_eq, h]
  · intro a ha h
    rw [extract_autonomy_eq, h]
    simp [ha]

/-- C5, witness: an utterance containing a gearbox, traction, price, power and
a nonzero autonomy wins on all five fields even though the memory is empty. -/
theorem c5_witness :
    (extract_criteria_from_query "manual delantera 30k 300 cv 600 km" "").gearbox
      = some "Manual" ∧
    (extract_criteria_from_query "manual delantera 30k 300 cv 600 km" "").traction
      = some "FWD" ∧
    (extract_criteria_from_query "manual delantera 30k 300 cv 600 km" "").price_range
      = some (0, adjustPrice 30) ∧
    (extract_criteria_from_query "manual delantera 30k 300 cv 600 km" "").power_range
      = some (300, 1000) ∧
    (extract_criteria_from_query "manual delantera 30k 300 cv 600 km" "").autonomy_min
      = some 600 :=
  ⟨(c5_single_valued_precedence "manual delantera 30k 300 cv 600 km" "").1
      "Manual" (by decide),
   (c5_single_valued_precedence "manual delantera 30k 300 cv 600 km" "").2.1
      "FWD" (by decide),
   (c5_single_valued_precedence "manual delantera 30k 300 cv 600 km" "").2.2.1
      30 (by decide),
   (c5_single_valued_precedence "manual delantera 30k 300 cv 600 km" "").2.2.2.1
      300 (by decide),
   (c5_single_valued_precedence "manual delantera 30k 300 cv 600 km" "").2.2.2.2
      600 (by decide) (by decide)⟩

/-! ## Claim C6: the price heuristic -/

/-- C6: a detected price literal is multiplied by 1000 exactly when it is
strictly below 500 and becomes the range (0, value); "30k" and "30000€" both
give (0, 30000), the boundary literal 499 gives (0, 499000) and 500 gives
(0, 500). -/
theorem c6_price_heuristic :
    (∀ q m p, rawPriceFrom (lowerData q) = some p →
        (extract_criteria_from_query q m).price_range
          = some (0, if p < 500 then p * 1000 else p)) ∧
    (extract_criteria_from_query "30k" "").price_range = some (0, 30000) ∧
    (extract_criteria_from_query "30000€" "").price_range = some (0, 30000) ∧
    (extract_criteria_from_query "499€" "").price_range = some (0, 499000) ∧
    (extract_criteria_from_query "500€" "").price_range = some (0, 500) := by
  refine ⟨?_, by decide, by decide, by decide, by decide⟩
  intro q m p h
  rw [extract_price_eq, h]
  rfl

/-- C6, witness: the general rule applied to the utterance "45 €". -/
theorem c6_witness : (extract_criteria_from_query "45 €" "").price_range = some (0, 45000) := by
  have h := c6_price_heuristic.1 "45 €" "" 45 (by decide)
  simpa using h

/-! ## Claim C10: the bare "auto" substring -/

/-- C10: any utterance whose lower-cased text contains "auto" and not "manual"
gets gearbox "Automático", whatever the memory says. -/
theorem c10_gearbox_auto_substring (q m : String)
    (h1 : containsSub ("auto".data) (lowerData q) = true)
    (h2 : containsSub ("manual".data) (lowerData q) = false) :
    (extract_criteria_from_query q m).gearbox = some "Automático" := by
  have hg : gearboxFromQuery (lowerData q) = some "Automático" := by
    unfold gearboxFromQuery
    rw [h2, h1]
    simp
  rw [extract_gearbox_eq, hg]

/-- C10, witness: "quiero 400 km de autonomia" mentions no gearbox, yet the
"auto" inside "autonomia" sets gearbox to "Automático". -/
theorem c10_witness :
    (extract_criteria_from_query "quiero 400 km de autonomia" "").gearbox
      = some "Automático" :=
  c10_gearbox_auto_substring "quiero 400 km de autonomia" "" (by decide) (by decide)

/-! ## Claim C9: extraction is total, unmatched dimensions stay empty -/

/-- C9: extraction is a total function of the two input strings (the model is
a computable Lean function, so termination and absence of exceptions hold by
construction — the only fallible spots of the source, `int(...)` and
`matches[0]`, are guarded by the digit-only regex and the `if matches` test);
and a dimension with no matching pattern in either source is left
empty (`[]`) or absent (`None`). -/
theorem c9_no_match_leaves_empty (q m : String) :
    (topicsFrom (lowerData q) = [] → topicsFrom (lowerData m) = [] →
      (extract_criteria_from_query q m).topics = []) ∧
    (typesFrom (lowerData q) = [] → typesFrom (lowerData m) = [] →
      (extract_criteria_from_query q m).vehicle_types = []) ∧
    (brandsFrom (lowerData q) = [] → (extract_criteria_from_query q m).brands = []) ∧
    (motorsFrom (lowerData q) = [] → motorsFrom (lowerData m) = [] →
      (extract_criteria_from_query q m).motors = []) ∧
    (gearboxFromQuery (lowerData q) = none → gearboxFromMemory (lowerData m) = none →
      (extract_criteria_from_query q m).gearbox = none) ∧
    (tractionFrom (lowerData q) = none → tractionFrom (lowerData m) = none →
      (extract_criteria_from_query q m).traction = none) ∧
    (rawPriceFrom (lowerData q) = none → rawPriceFrom (lowerData m) = none →
      (extract_criteria_from_query q m).price_range = none) ∧
    (rawPowerFrom (lowerData q) = none → rawPowerFrom (lowerData m) = none →
      (extract_criteria_from_query q m).power_range = none) ∧
    (rawAutonomyFrom (lowerData q) = none → rawAutonomyFrom (lowerData m) = none →
      (extract_criteria_from_query q m).autonomy_min = none) := by
  refine ⟨?_, ?_, ?_, ?_, ?_, ?_, ?_, ?_, ?_⟩
  · intro h1 h2
    rw [extract_topics_eq]
    unfold addTopicsFrom
    rw [h1]
    exact h2
  · intro h1 h2
    rw [extract_types_eq, h1]
    simpa using h2
  · intro h1
    rw [extract_brands_eq, h1]
  · intro h1 h2
    rw [extract_motors_eq, h1]
    simpa using h2
  · intro h1 h2
    rw [extract_gearbox_eq, h1]
    exact h2
  · intro h1 h2
    rw [extract_traction_eq, h1]
    exact h2
  · intro h1 h2
    rw [extract_price_eq, h1, h2]
  · intro h1 h2
    rw [extract_power_eq, h1, h2]
  · intro h1 h2
    rw [extract_autonomy_eq, h1]
    exact h2

/-- C9, witness: the match-free utterance "xyz" with empty memory leaves every
dimension empty. -/
theorem c9_witness :
    (extract_criteria_from_query "xyz" "").topics = [] ∧
    (extract_criteria_from_query "xyz" "").gearbox = none ∧
    (extract_criteria_from_query "xyz" "").price_range = none ∧
    (extract_criteria_from_query "xyz" "").autonomy_min = none :=
  ⟨(c9_no_match_leaves_empty "xyz" "").1 (by decide) (by decide),
   (c9_no_match_leaves_empty "xyz" "").2.2.2.2.1 (by decide) (by decide),
   (c9_no_match_leaves_empty "xyz" "").2.2.2.2.2.2.1 (by decide) (by decide),
   (c9_no_match_leaves_empty "xyz" "").2.2.2.2.2.2.2.2 (by decide) (by decide)⟩

/-! ## Claim C4: searching mutates the stored records -/

/-- C4, counterexample: one search with empty criteria on a one-record catalog
adds `relevance_score = 20` to the stored record — `filtered` is a shallow
copy, so `_score_vehicles` writes into `vehicles_db` itself. -/
theorem c4_counterexample :
    vehicles_db_after_search [baseVehicle] (extract_criteria_from_query "" "")
      ≠ [baseVehicle] ∧
    (vehicles_db_after_search [baseVehicle] (extract_criteria_from_query "" "")).map
        (fun v => v.relevance_score) = [some 20] := by
  decide

/-- C4, amended: a search never adds, removes or reorders records and never
changes any catalog field, but it does set `relevance_score` on every stored
record that passes all filters (mutating `vehicles_db` through the shallow
copy); records failing some filter are left untouched. -/
theorem c4_search_frame (db : List Vehicle) (c : Criteria) :
    (vehicles_db_after_search db c).map stripScore = db.map stripScore ∧
    (vehicles_db_after_search db c).length = db.length ∧
    (∀ v ∈ db, passesAllFilters c v = true →
      { v with relevance_score := some (scoreValue v c.topics) }
        ∈ vehicles_db_after_search db c) ∧
    (∀ v ∈ db, passesAllFilters c v = false → v ∈ vehicles_db_after_search db c) := by
  unfold vehicles_db_after_search
  cases hdb : db.isEmpty with
  | true =>
    have : db = [] := by simpa using hdb
    subst this
    simp
  | false =>
    simp only [Bool.false_eq_true, if_false]
    refine ⟨?_, by simp, ?_, ?_⟩
    · rw [List.map_map]
      apply List.map_congr_left
      intro v hv
      by_cases hp : passesAllFilters c v = true
      · simp [hp, stripScore, Function.comp]
      · simp [hp, Function.comp]
    · intro v hv hp
      refine List.mem_map.mpr ⟨v, hv, ?_⟩
      simp [hp]
    · intro v hv hp
      refine List.mem_map.mpr ⟨v, hv, ?_⟩
      simp [hp]

/-- C4, witness: the empty-criteria search on the one-record catalog contains
the mutated copy of `baseVehicle`. -/
theorem c4_witness :
    { baseVehicle with
        relevance_score :=
          some (scoreValue baseVehicle (extract_criteria_from_query "" "").topics) }
      ∈ vehicles_db_after_search [baseVehicle] (extract_criteria_from_query "" "") :=
  (c4_search_frame [baseVehicle] (extract_criteria_from_query "" "")).2.2.1 baseVehicle
    (by simp) (by decide)

/-! ## Claim C7: scoring formula, stable descending ranking, top 5 -/

theorem score_foldl_eq_sum (v : Vehicle) :
    ∀ (l : List String) (init : ℚ),
      l.foldl (fun acc t => acc + scoreForTopic v t * 100) init
        = init + (l.map (fun t => scoreForTopic v t * 100)).sum := by
  intro l
  induction l with
  | nil => intro init; simp
  | cons a l ih =>
    intro init
    rw [List.foldl_cons, List.map_cons, List.sum_cons, ih]
    ring

theorem scoreValue_eq_sum (v : Vehicle) (topics : List String) :
    scoreValue v topics
      = (if (topics.map (fun t => scoreForTopic v t * 100)).sum = 0 then 20
         else (topics.map (fun t => scoreForTopic v t * 100)).sum) := by
  simp only [scoreValue]
  rw [score_foldl_eq_sum v topics 0]
  simp

/-- C7: every scored vehicle's relevance equals the sum over requested topics
of its per-topic score times 100, with an exact 0 (in particular an empty
topic list) replaced by the flat default 20; the ranking is the stable
descending order — on A(eco=0.8), B(eco=0.5), C(eco=0.8) with topics={eco}
the output order is A, C, B — and at most the first 5 results are returned. -/
theorem c7_scoring_and_ranking :
    (∀ (vs : List Vehicle) (topics : List String),
      (score_vehicles vs topics).map (fun v => v.relevance_score)
        = vs.map (fun v =>
            some (if (topics.map (fun t => scoreForTopic v t * 100)).sum = 0 then 20
                  else (topics.map (fun t => scoreForTopic v t * 100)).sum))) ∧
    (∀ (db : List Vehicle) (c : Criteria),
      (search_vehicles_by_criteria db c).1.length ≤ 5) ∧
    (extract_criteria_from_query "eco" "").topics = ["eco"] ∧
    (search_vehicles_by_criteria [vehA, vehB, vehC]
        (extract_criteria_from_query "eco" "")).1.map (fun v => v.name) = ["A", "C", "B"] := by
  refine ⟨?_, ?_, by decide, by decide⟩
  · intro vs topics
    unfold score_vehicles
    rw [List.map_map]
    apply List.map_congr_left
    intro v hv
    simp only [Function.comp]
    exact congrArg some (scoreValue_eq_sum v topics)
  · intro db c
    unfold search_vehicles_by_criteria
    split
    · simp
    · exact List.length_take_le 5 _

/-! ## Claim C8: bounded message log, monotone topic set -/

theorem dequeAppend_eq_drop {α : Type} (N : Nat) (d : List α) (x : α) :
    dequeAppend N d x = (d ++ [x]).drop ((d ++ [x]).length - N) := by
  simp only [dequeAppend]
  split
  · rfl
  · rename_i h
    rw [Nat.sub_eq_zero_of_le (Nat.le_of_not_lt h), List.drop_zero]

theorem dequeAppend_length_le {α : Type} (N : Nat) (d : List α) (x : α) :
    (dequeAppend N d x).length ≤ N := by
  simp only [dequeAppend]
  split
  · rename_i h
    simp only [List.length_drop]
    omega
  · rename_i h
    omega

theorem foldl_dequeAppend_length_le {α : Type} (N : Nat) :
    ∀ (xs : List α) (d : List α), d.length ≤ N →
      (xs.foldl (dequeAppend N) d).length ≤ N := by
  intro xs
  induction xs with
  | nil => intro d hd; exact hd
  | cons x xs ih =>
    intro d hd
    exact ih (dequeAppend N d x) (dequeAppend_length_le N d x)

theorem foldl_dequeAppend_eq_drop {α : Type} (N : Nat) :
    ∀ (xs : List α) (d : List α), d.length ≤ N →
      xs.foldl (dequeAppend N) d = (d ++ xs).drop ((d ++ xs).length - N) := by
  intro xs
  induction xs with
  | nil =>
    intro d hd
    simp [Nat.sub_eq_zero_of_le hd]
  | cons x xs ih =>
    intro d hd
    rw [List.foldl_cons, ih (dequeAppend N d x) (dequeAppend_length_le N d x),
      dequeAppend_eq_drop]
    have hk : (d ++ [x]).length - N ≤ (d ++ [x]).length := Nat.sub_le _ _
    rw [← List.drop_append_of_le_length hk, List.drop_drop]
    have hassoc : (d ++ [x]) ++ xs = d ++ x :: xs := by
      rw [List.append_assoc, List.singleton_append]
    rw [hassoc]
    clear hk
    congr 1
    simp only [List.length_append, List.length_drop, List.length_cons, List.length_nil,
      List.length_singleton]
    omega

theorem extractPreferences_spec (s : MemoryManager) (t : String) :
    ∃ mp cp, extractPreferences s t
      = { s with motor_preference := mp, cambio_preference := cp } :=
  ⟨_, _, rfl⟩

theorem addTopic_grow (ts : List String) (y x : String) (h : x ∈ ts) : x ∈ addTopic ts y := by
  unfold addTopic
  split
  · exact h
  · exact List.mem_append_left _ h

theorem extractTopicsMM_grow (ts : List String) (t : String) (x : String) (h : x ∈ ts) :
    x ∈ extractTopicsMM ts t := by
  unfold extractTopicsMM
  refine mem_foldl_grow _ ?_ MM_TOPICS ts x h
  intro acc p y hy
  dsimp only
  split
  · exact addTopic_grow _ _ _ hy
  · exact hy

theorem add_message_spec (s : MemoryManager) (r c : String) (ts : Nat)
    (md : List (String × String)) :
    (add_message s r c ts md).messages
        = dequeAppend s.max_messages s.messages
            { role := r, content := c, timestamp := ts, metadata := md } ∧
    (add_message s r c ts md).max_messages = s.max_messages ∧
    (∀ x ∈ s.mentioned_topics, x ∈ (add_message s r c ts md).mentioned_topics) := by
  unfold add_message
  split
  · obtain ⟨mp, cp, h⟩ := extractPreferences_spec
      { s with
        messages := dequeAppend s.max_messages s.messages
          { role := r, content := c, timestamp := ts, metadata := md },
        mentioned_topics :=
          extractTopicsMM s.mentioned_topics c } c
    rw [h]
    exact ⟨rfl, rfl, fun x hx => extractTopicsMM_grow _ _ _ hx⟩
  · exact ⟨rfl, rfl, fun x hx => hx⟩

theorem foldl_add_message_spec (turns : List (String × String × Nat)) :
    ∀ (s : MemoryManager),
      (turns.foldl (fun st rct => add_message st rct.1 rct.2.1 rct.2.2 []) s).messages
        = turns.foldl (fun msgs rct => dequeAppend s.max_messages msgs (toMessage rct))
            s.messages ∧
      (turns.foldl (fun st rct => add_message st rct.1 rct.2.1 rct.2.2 []) s).max_messages
        = s.max_messages := by
  induction turns with
  | nil => intro s; exact ⟨rfl, rfl⟩
  | cons rct turns ih =>
    intro s
    rw [List.foldl_cons, List.foldl_cons]
    obtain ⟨hmsg, hmax, -⟩ := add_message_spec s rct.1 rct.2.1 rct.2.2 []
    obtain ⟨ih1, ih2⟩ := ih (add_message s rct.1 rct.2.1 rct.2.2 [])
    constructor
    · rw [ih1, hmax, hmsg]
      rfl
    · rw [ih2, hmax]

/-- C8: the message log of a memory never exceeds its capacity
(`deque(maxlen=max_messages)`): appending N+1 turns to a fresh memory of
capacity N leaves exactly the last N turns, the oldest evicted; topics are
unaffected by eviction and no mutating operation other than `clear` ever
removes a mentioned topic; every operation keeps the length bound and the
capacity itself. -/
theorem c8_bounded_memory_monotone_topics :
    (∀ (N : Nat) (turns : List (String × String × Nat)), turns.length = N + 1 →
      (runTurns N turns).messages = (turns.map toMessage).drop 1 ∧
      (runTurns N turns).messages.length = N) ∧
    (∀ (s : MemoryManager) (op : MemOp), op ≠ MemOp.clear →
      ∀ x ∈ s.mentioned_topics, x ∈ (memStep s op).mentioned_topics) ∧
    (∀ (s : MemoryManager) (op : MemOp), s.messages.length ≤ s.max_messages →
      (memStep s op).messages.length ≤ s.max_messages ∧
      (memStep s op).max_messages = s.max_messages) := by
  refine ⟨?_, ?_, ?_⟩
  · intro N turns h
    have hmsg : (runTurns N turns).messages = (turns.map toMessage).drop 1 := by
      unfold runTurns
      rw [(foldl_add_message_spec turns (MemoryManager.init N 5)).1]
      simp only [MemoryManager.init]
      rw [← List.foldl_map, foldl_dequeAppend_eq_drop N (turns.map toMessage) [] (by simp)]
      simp [h]
    refine ⟨hmsg, ?_⟩
    rw [hmsg]
    simp [h]
  · intro s op hop x hx
    cases op with
    | addMessage r c ts md => exact (add_message_spec s r c ts md).2.2 x hx
    | addFilterUpdate f ts => exact hx
    | importMemory msgs frecs mp cp tps =>
      exact mem_foldl_grow addTopic (fun acc b y hy => addTopic_grow acc b y hy)
        tps s.mentioned_topics x hx
    | clear => exact absurd rfl hop
  · intro s op h
    cases op with
    | addMessage r c ts md =>
      obtain ⟨hmsg, hmax, -⟩ := add_message_spec s r c ts md
      refine ⟨?_, hmax⟩
      show (add_message s r c ts md).messages.length ≤ s.max_messages
      rw [hmsg]
      exact dequeAppend_length_le _ _ _
    | addFilterUpdate f ts => exact ⟨h, rfl⟩
    | importMemory msgs frecs mp cp tps =>
      exact ⟨foldl_dequeAppend_length_le _ _ _ h, rfl⟩
    | clear => exact ⟨Nat.zero_le _, rfl⟩

/-- C8, witness: capacity 2 with the three concrete turns of `turnsEx`: the
first turn is evicted, exactly 2 remain, and the topic "eco" mentioned by the
evicted turn survives a further (non-clearing) operation. -/
theorem c8_witness :
    (runTurns 2 turnsEx).messages = (turnsEx.map toMessage).drop 1 ∧
    (runTurns 2 turnsEx).messages.length = 2 ∧
    "eco" ∈ (memStep (runTurns 2 turnsEx) (MemOp.addFilterUpdate [] 3)).mentioned_topics :=
  ⟨(c8_bounded_memory_monotone_topics.1 2 turnsEx (by decide)).1,
   (c8_bounded_memory_monotone_topics.1 2 turnsEx (by decide)).2,
   c8_bounded_memory_monotone_topics.2.1 (runTurns 2 turnsEx) (MemOp.addFilterUpdate [] 3)
     (by decide) "eco" (by decide)⟩

end SIBI
